import Mathlib

/-!
Verification development for the PaperWeather-Pi repository.

The Python sources are shallowly embedded:

* `src/eink_converter.py` — `rgb_to_hsv`, `is_red`, the per-pixel mask
  construction and layer composition of `EInkConverter.convert`, and the
  outline dilation of `_create_outline`.  Python floats are modelled as
  exact rationals; an image is modelled as a total pixel function and the
  mask, outline and composition stages are modelled per pixel.  The
  Lanczos resampling steps (the optional 2x anti-alias upscale and the
  final downscale) are Pillow floating-point filters and are outside the
  embedding; `convertPixel` is the exact classify/outline/compose stage
  that `convert` applies between them, i.e. the whole of `convert` when
  `use_anti_alias` is false.
* `src/renderer.py` — `render`, `get_weather_icon`, `draw_sun_moon_rich`,
  `fmt_ts` and `generate_moon_icon`.  Drawing is modelled as the ordered
  list of draw operations issued against each of the two 1-bit planes,
  with the data that feeds each text string carried symbolically.
  Filesystem cache and HTTP fetch are explicit state and an explicit
  collaborator response.
* `src/i18n.py` — `translate` (dictionary lookup with identity fallback).
-/

/-! ## Palette converter (src/eink_converter.py) -/

/-- Python float modulo `x % y`, modelled exactly on rationals
(result has the sign of `y`; for `y = 360 > 0` the result is in `[0, 360)`). -/
def qmod (x y : ℚ) : ℚ := x - y * (⌊x / y⌋ : ℤ)

/-- An HSV triple as produced by `EInkConverter.rgb_to_hsv`
(h in degrees `[0, 360)`, s and v on the 0-255 scale). -/
structure HSV where
  h : ℚ
  s : ℚ
  v : ℚ
deriving DecidableEq

/-- `EInkConverter.rgb_to_hsv` (src/eink_converter.py lines 39-62),
with the Python float arithmetic modelled as exact rational arithmetic. -/
def rgb_to_hsv (r g b : ℚ) : HSV :=
  let r := r / 255
  let g := g / 255
  let b := b / 255
  let max_val := max r (max g b)
  let min_val := min r (min g b)
  let diff := max_val - min_val
  let h :=
    if diff = 0 then 0
    else if max_val = r then qmod (60 * ((g - b) / diff) + 360) 360
    else if max_val = g then qmod (60 * ((b - r) / diff) + 120) 360
    else qmod (60 * ((r - g) / diff) + 240) 360
  let s := if max_val = 0 then 0 else diff / max_val * 255
  let v := max_val * 255
  { h := h, s := s, v := v }

/-- Constructor parameters of `EInkConverter` (src/eink_converter.py lines 17-37).
The hue range tuple is split into its two components. -/
structure ConverterConfig where
  red_hue_min : ℚ
  red_hue_max : ℚ
  red_saturation_min : ℚ
  dark_threshold : ℤ
  outline_width : ℕ
  use_anti_alias : Bool
deriving DecidableEq

/-- The default `EInkConverter()` configuration. -/
def defaultConfig : ConverterConfig :=
  { red_hue_min := 0, red_hue_max := 30, red_saturation_min := 50,
    dark_threshold := 128, outline_width := 2, use_anti_alias := true }

/-- `EInkConverter.is_red` (src/eink_converter.py lines 64-72):
`in_hue_range = (h >= h_min and h <= h_max) or (h >= 360 - h_max and h <= 360)`,
conjoined with the saturation and value thresholds. -/
def is_red (cfg : ConverterConfig) (r g b : ℚ) : Bool :=
  let hsv := rgb_to_hsv r g b
  ((decide (hsv.h ≥ cfg.red_hue_min) && decide (hsv.h ≤ cfg.red_hue_max)) ||
      (decide (hsv.h ≥ 360 - cfg.red_hue_max) && decide (hsv.h ≤ 360))) &&
    decide (hsv.s ≥ cfg.red_saturation_min) && decide (hsv.v ≥ 50)

/-- Perceptual luminance `int(0.299 * r + 0.587 * g + 0.114 * b)`
(src/eink_converter.py line 123); `int` truncation of a non-negative
value is the floor. -/
def luminance (r g b : ℕ) : ℤ := ⌊(299 * (r : ℚ) + 587 * (g : ℚ) + 114 * (b : ℚ)) / 1000⌋

/-- The category a pixel falls into in the mask-building loop of
`EInkConverter.convert` (src/eink_converter.py lines 110-128). -/
inductive PixelClass
  | transparent
  | red
  | black
  | white
deriving DecidableEq

/-- Per-pixel classification of the mask-building loop
(src/eink_converter.py lines 110-128): alpha below 128 is skipped,
then `is_red`, then the luminance / dark-threshold split. -/
def classify (cfg : ConverterConfig) (r g b a : ℕ) : PixelClass :=
  if a < 128 then .transparent
  else if is_red cfg (r : ℚ) (g : ℚ) (b : ℚ) then .red
  else if luminance r g b < cfg.dark_threshold then .black
  else .white

/-- An RGBA image as a total function from coordinates (y, x) to
`(r, g, b, a)` byte values.  The masks of `convert` are modelled as the
corresponding total predicates on coordinates. -/
abbrev RGBAImage := ℤ → ℤ → ℕ × ℕ × ℕ × ℕ

/-- The classification of the pixel of `img` at row `y`, column `x`. -/
def pixelClassAt (cfg : ConverterConfig) (img : RGBAImage) (y x : ℤ) : PixelClass :=
  let p := img y x
  classify cfg p.1 p.2.1 p.2.2.1 p.2.2.2

/-- `red_mask` of `EInkConverter.convert`. -/
def red_mask (cfg : ConverterConfig) (img : RGBAImage) (y x : ℤ) : Bool :=
  decide (pixelClassAt cfg img y x = .red)

/-- `black_mask` of `EInkConverter.convert`. -/
def black_mask (cfg : ConverterConfig) (img : RGBAImage) (y x : ℤ) : Bool :=
  decide (pixelClassAt cfg img y x = .black)

/-- `white_content_mask` of `EInkConverter.convert`. -/
def white_content_mask (cfg : ConverterConfig) (img : RGBAImage) (y x : ℤ) : Bool :=
  decide (pixelClassAt cfg img y x = .white)

/-- The `ImageFilter.MaxFilter(2 * outline_width + 1)` dilation used by
`EInkConverter._create_outline` (src/eink_converter.py lines 152-163):
a pixel of the dilated mask is set when any pixel of the
`(2w+1) x (2w+1)` window around it is set. -/
def dilate (w : ℕ) (mask : ℤ → ℤ → Bool) (y x : ℤ) : Bool :=
  (List.range (2 * w + 1)).any fun dy =>
    (List.range (2 * w + 1)).any fun dx =>
      mask (y + (dy : ℤ) - (w : ℤ)) (x + (dx : ℤ) - (w : ℤ))

/-- `outline = dilated & ~content_mask` (src/eink_converter.py line 161),
applied to the white-content mask. -/
def outline_mask (cfg : ConverterConfig) (img : RGBAImage) (y x : ℤ) : Bool :=
  dilate cfg.outline_width (white_content_mask cfg img) y x &&
    !(white_content_mask cfg img y x)

/-- The layer composition of `EInkConverter.convert`
(src/eink_converter.py lines 134-139): the canvas starts white, pixels of
`black_mask | outline_mask` are painted black, and red pixels are painted
last, overriding black.  This is the exact per-pixel output of `convert`
when `use_anti_alias` is false (with anti-alias on, `convert` additionally
resamples before and after this stage). -/
def convertPixel (cfg : ConverterConfig) (img : RGBAImage) (y x : ℤ) : ℕ × ℕ × ℕ :=
  if red_mask cfg img y x then (255, 0, 0)
  else if black_mask cfg img y x || outline_mask cfg img y x then (0, 0, 0)
  else (255, 255, 255)

/-- A pixel value that is already one of the three palette colors, fully opaque. -/
def threeColorOpaque (p : ℕ × ℕ × ℕ × ℕ) : Prop :=
  p = (0, 0, 0, 255) ∨ p = (255, 0, 0, 255) ∨ p = (255, 255, 255, 255)

/-- The RGB part of an RGBA pixel value. -/
def rgbOf (p : ℕ × ℕ × ℕ × ℕ) : ℕ × ℕ × ℕ := (p.1, p.2.1, p.2.2.1)

/-- C1: every pixel produced by the classify/outline/compose stage of
`EInkConverter.convert` is exactly pure black, pure red, or white.  This is
the entire `convert` pipeline when anti-alias is off; with anti-alias on the
final Lanczos downscale sits after this stage and blends these colors. -/
theorem convert_pixel_three_colors (cfg : ConverterConfig) (img : RGBAImage) (y x : ℤ) :
    convertPixel cfg img y x = (0, 0, 0) ∨ convertPixel cfg img y x = (255, 0, 0) ∨
      convertPixel cfg img y x = (255, 255, 255) := by
  unfold convertPixel
  split_ifs <;> simp

/-- The red-classification condition restated as a proposition: hue inside
`[h_min, h_max]` or inside the always-active mirrored band `[360 - h_max, 360]`,
with saturation at least the configured minimum and value at least 50.
This is what `is_red` actually decides. -/
def red_classification (cfg : ConverterConfig) (r g b : ℚ) : Prop :=
  let hsv := rgb_to_hsv r g b
  ((cfg.red_hue_min ≤ hsv.h ∧ hsv.h ≤ cfg.red_hue_max) ∨
      (360 - cfg.red_hue_max ≤ hsv.h ∧ hsv.h ≤ 360)) ∧
    cfg.red_saturation_min ≤ hsv.s ∧ 50 ≤ hsv.v

theorem is_red_iff (cfg : ConverterConfig) (r g b : ℚ) :
    is_red cfg r g b = true ↔ red_classification cfg r g b := by
  simp only [is_red, red_classification, Bool.and_eq_true, Bool.or_eq_true,
    decide_eq_true_eq, ge_iff_le]
  tauto

theorem is_red_true_of (cfg : ConverterConfig) (r g b : ℚ)
    (h : red_classification cfg r g b) : is_red cfg r g b = true :=
  (is_red_iff cfg r g b).mpr h

theorem is_red_false_of (cfg : ConverterConfig) (r g b : ℚ)
    (h : ¬ red_classification cfg r g b) : is_red cfg r g b = false := by
  cases hb : is_red cfg r g b
  · rfl
  · exact absurd ((is_red_iff cfg r g b).mp hb) h

theorem hsv_pure_red : rgb_to_hsv 255 0 0 = ⟨0, 255, 255⟩ := by
  norm_num [rgb_to_hsv, qmod, max_def, min_def]

theorem hsv_pure_white : rgb_to_hsv 255 255 255 = ⟨0, 0, 255⟩ := by
  norm_num [rgb_to_hsv, qmod, max_def, min_def]

theorem hsv_pure_black : rgb_to_hsv 0 0 0 = ⟨0, 0, 0⟩ := by
  norm_num [rgb_to_hsv, qmod, max_def, min_def]

/-- The pixel (255, 0, 85) has hue 340 (a magenta-leaning red), full
saturation and full value. -/
theorem hsv_pink : rgb_to_hsv 255 0 85 = ⟨340, 255, 255⟩ := by
  norm_num [rgb_to_hsv, qmod, max_def, min_def]

theorem luminance_pure_black : luminance 0 0 0 = 0 := by
  norm_num [luminance]

theorem luminance_pure_white : luminance 255 255 255 = 255 := by
  norm_num [luminance]

theorem luminance_pure_red : luminance 255 0 0 = 76 := by
  norm_num [luminance]

/-- The red rule as the spec sentence of C3 states it: hue inside the
configured range, with a wraparound band applied only when the range's upper
bound exceeds 360 degrees, plus the saturation and value thresholds.
Modelled from the spec words for comparison against `is_red`. -/
def spec_red_rule (cfg : ConverterConfig) (r g b : ℚ) : Prop :=
  let hsv := rgb_to_hsv r g b
  (if cfg.red_hue_max > 360 then
      (cfg.red_hue_min ≤ hsv.h ∧ hsv.h ≤ 360) ∨ (0 ≤ hsv.h ∧ hsv.h ≤ cfg.red_hue_max - 360)
    else cfg.red_hue_min ≤ hsv.h ∧ hsv.h ≤ cfg.red_hue_max) ∧
    cfg.red_saturation_min ≤ hsv.s ∧ 50 ≤ hsv.v

/-- C3 counterexample: under the default configuration (hue range `[0, 30]`),
the pixel (255, 0, 85) has hue 340, which is outside `[0, 30]`, yet the
converter classifies it red, because the mirrored band `[330, 360]` is applied
even though the range's upper bound does not exceed 360. -/
theorem red_wraparound_counterexample :
    classify defaultConfig 255 0 85 255 = PixelClass.red ∧
    (rgb_to_hsv 255 0 85).h = 340 ∧
    ¬ spec_red_rule defaultConfig 255 0 85 := by
  have hb : is_red defaultConfig 255 0 85 = true :=
    is_red_true_of _ _ _ _ (by norm_num [red_classification, hsv_pink, defaultConfig])
  refine ⟨by simp [classify, hb], by simp [hsv_pink], ?_⟩
  norm_num [spec_red_rule, hsv_pink, defaultConfig]

/-- C3 amended: an opaque pixel (alpha at least 128) is classified red iff its
hue lies in the configured range or in the always-applied mirrored band
`[360 - h_max, 360]` (also for the default range `[0, 30]`, whose mirrored band
is `[330, 360]`), its saturation is at least the configured minimum, and its
value is at least 50; a pixel with alpha below 128 is never classified red. -/
theorem classify_red_iff (cfg : ConverterConfig) (r g b a : ℕ) :
    classify cfg r g b a = PixelClass.red ↔
      128 ≤ a ∧ red_classification cfg (r : ℚ) (g : ℚ) (b : ℚ) := by
  have hir := is_red_iff cfg (r : ℚ) (g : ℚ) (b : ℚ)
  unfold classify
  split_ifs with h1 h2 h3
  · constructor
    · intro hc; cases hc
    · rintro ⟨ha, _⟩; exfalso; omega
  · exact ⟨fun _ => ⟨by omega, hir.mp h2⟩, fun _ => rfl⟩
  · constructor
    · intro hc; cases hc
    · rintro ⟨_, hrc⟩; exact absurd (hir.mpr hrc) h2
  · constructor
    · intro hc; cases hc
    · rintro ⟨_, hrc⟩; exact absurd (hir.mpr hrc) h2

/-- A configuration whose red hue range `[100, 200]` does not contain the hue
of pure red; anti-alias is off, so `convertPixel` is the whole of `convert`. -/
def greenRangeConfig : ConverterConfig :=
  { red_hue_min := 100, red_hue_max := 200, red_saturation_min := 50,
    dark_threshold := 128, outline_width := 2, use_anti_alias := false }

/-- An image whose every pixel is already pure red (opaque). -/
def allRedImage : RGBAImage := fun _ _ => (255, 0, 0, 255)

/-- C6 counterexample: converting an already-3-color (all pure red) image with
the hue range `[100, 200]` and anti-alias off turns its pixels black, and the
change is not outline growth (the outline mask is empty there): `convert` is
not idempotent for every configuration. -/
theorem convert_not_idempotent_counterexample :
    threeColorOpaque (allRedImage 0 0) ∧
    outline_mask greenRangeConfig allRedImage 0 0 = false ∧
    convertPixel greenRangeConfig allRedImage 0 0 = (0, 0, 0) ∧
    rgbOf (allRedImage 0 0) = (255, 0, 0) ∧
    ((0, 0, 0) : ℕ × ℕ × ℕ) ≠ (255, 0, 0) := by
  have hb : is_red greenRangeConfig 255 0 0 = false :=
    is_red_false_of _ _ _ _ (by norm_num [red_classification, hsv_pure_red, greenRangeConfig])
  have hth : greenRangeConfig.dark_threshold = 128 := rfl
  have hcls : ∀ j i : ℤ, pixelClassAt greenRangeConfig allRedImage j i = PixelClass.black := by
    intro j i
    simp [pixelClassAt, allRedImage, classify, hb, luminance_pure_red, hth]
  have hwcm : ∀ j i : ℤ, white_content_mask greenRangeConfig allRedImage j i = false := by
    intro j i
    simp [white_content_mask, hcls]
  have hout : outline_mask greenRangeConfig allRedImage 0 0 = false := by
    simp [outline_mask, dilate, hwcm]
  refine ⟨Or.inr (Or.inl rfl), hout, ?_, rfl, by decide⟩
  simp [convertPixel, red_mask, black_mask, hcls]

/-- C6 amended: for a configuration (with anti-alias off, so that no
resampling is involved) under which each palette color re-classifies to
itself — pure red is red-classified, white and black are not, and the dark
threshold lies in `(0, 255]` — converting an image whose pixels are already
only pure black, pure red and white (opaque) reproduces every pixel exactly,
with no outline growth anywhere. -/
theorem convert_idempotent_palette (cfg : ConverterConfig) (img : RGBAImage)
    (hred : is_red cfg 255 0 0 = true)
    (hwhite : is_red cfg 255 255 255 = false)
    (hblack : is_red cfg 0 0 0 = false)
    (ht0 : 0 < cfg.dark_threshold) (ht1 : cfg.dark_threshold ≤ 255)
    (h3 : ∀ j i, threeColorOpaque (img j i)) (y x : ℤ) :
    convertPixel cfg img y x = rgbOf (img y x) := by
  have hl0 : luminance 0 0 0 = 0 := luminance_pure_black
  have hl255 : luminance 255 255 255 = 255 := luminance_pure_white
  rcases h3 y x with h | h | h
  · have hpc : pixelClassAt cfg img y x = PixelClass.black := by
      unfold pixelClassAt classify
      rw [h]
      simp [hblack, hl0, ht0]
    simp [convertPixel, red_mask, black_mask, hpc, rgbOf, h]
  · have hpc : pixelClassAt cfg img y x = PixelClass.red := by
      unfold pixelClassAt classify
      rw [h]
      simp [hred]
    simp [convertPixel, red_mask, hpc, rgbOf, h]
  · have hpc : pixelClassAt cfg img y x = PixelClass.white := by
      unfold pixelClassAt classify
      rw [h]
      simp [hwhite, hl255]
      omega
    have hwc : white_content_mask cfg img y x = true := by
      simp [white_content_mask, hpc]
    simp [convertPixel, red_mask, black_mask, outline_mask, hpc, hwc, rgbOf, h]

/-- The default configuration with anti-alias disabled. -/
def defaultNoAliasConfig : ConverterConfig :=
  { defaultConfig with use_anti_alias := false }

/-- An image whose every pixel is already white (opaque). -/
def allWhiteImage : RGBAImage := fun _ _ => (255, 255, 255, 255)

theorem convert_idempotent_palette_witness :
    convertPixel defaultNoAliasConfig allWhiteImage 0 0 = rgbOf (allWhiteImage 0 0) :=
  convert_idempotent_palette defaultNoAliasConfig allWhiteImage
    (is_red_true_of _ _ _ _
      (by norm_num [red_classification, hsv_pure_red, defaultNoAliasConfig, defaultConfig]))
    (is_red_false_of _ _ _ _
      (by norm_num [red_classification, hsv_pure_white, defaultNoAliasConfig, defaultConfig]))
    (is_red_false_of _ _ _ _
      (by norm_num [red_classification, hsv_pure_black, defaultNoAliasConfig, defaultConfig]))
    (by norm_num [defaultNoAliasConfig, defaultConfig])
    (by norm_num [defaultNoAliasConfig, defaultConfig])
    (fun _ _ => Or.inr (Or.inr rfl)) 0 0

/-! ## Renderer (src/renderer.py) and i18n (src/i18n.py) -/

/-- `I18n.translate` (src/i18n.py line 96): `translations.get(text, text)` —
dictionary lookup falling back to the input string. -/
def I18n.translate (table : String → Option String) (text : String) : String :=
  (table text).getD text

/-- The `strftime("%a")` day-of-week abbreviation of a UTC timestamp
(epoch day 0 was a Thursday). -/
def weekdayName (t : ℤ) : String :=
  ["Thu", "Fri", "Sat", "Sun", "Mon", "Tue", "Wed"].getD ((t.ediv 86400) % 7).toNat "Thu"

/-- The hour field of `strftime("%H:%M")` applied to a UTC timestamp. -/
def hourOf (t : ℤ) : ℤ := (t.ediv 3600) % 24

/-- The minute field of `strftime("%H:%M")` applied to a UTC timestamp. -/
def minuteOf (t : ℤ) : ℤ := (t.ediv 60) % 60

/-- The data feeding each rendered text string, carried symbolically: the
formatted string is a pure function of these arguments. -/
inductive TextContent
  | lit (s : String)
  | dateText (ts : ℤ) (dayName : String)
  | clockText (hour minute : ℤ)
  | dashes
  | tempC (t : ℚ)
  | labelValue (label : String) (value : ℚ) (unit : String)
  | ageText (label : String) (age : ℚ)
  | degreesInt (t : ℚ)
deriving DecidableEq

/-- One drawing call issued against a 1-bit plane during `Renderer.render`. -/
inductive DrawOp
  | text (x y : ℤ) (content : TextContent) (font : String)
  | pasteIcon (x y : ℤ) (icon : ℕ)
  | pasteMoon (x y : ℤ) (age : ℚ) (size : ℤ)
  | line (x1 y1 x2 y2 : ℤ) (lineWidth : ℕ)
deriving DecidableEq

/-- The `fmt_ts` helper of `Renderer.draw_sun_moon_rich`
(src/renderer.py lines 362-365): a falsy (zero) timestamp renders as
dashes, otherwise `utcfromtimestamp(ts + timezone_offset)` is formatted
as hours and minutes. -/
def fmt_ts (timezone_offset ts : ℤ) : TextContent :=
  if ts = 0 then .dashes
  else .clockText (hourOf (ts + timezone_offset)) (minuteOf (ts + timezone_offset))

/-- `Renderer.draw_sun_moon_rich` (src/renderer.py lines 341-398): the ordered
black-plane operations it issues when called at `(x, y)`. -/
def draw_sun_moon_rich (table : String → Option String) (x y sunrise sunset : ℤ)
    (moon_age : ℚ) (timezone_offset : ℤ) : List DrawOp :=
  [ .pasteMoon (x + 200) (y + 10) moon_age 100,
    .text x (y + 10) (.lit (I18n.translate table "Sunrise")) "small",
    .text x (y + 30) (fmt_ts timezone_offset sunrise) "medium",
    .text (x + 80) (y + 10) (.lit (I18n.translate table "Sunset")) "small",
    .text (x + 80) (y + 30) (fmt_ts timezone_offset sunset) "medium",
    .text (x + 200) (y + 110) (.ageText (I18n.translate table "Age") moon_age) "small" ]

/-- The `current` fields of the parsed OpenWeather response consumed by
`Renderer.render`.  `dt` keeps the optionality of `current.get('dt')`; the
other fields carry the `get(..., default)` result. -/
structure CurrentData where
  dt : Option ℤ
  temp : ℚ
  sunrise : ℤ
  sunset : ℤ
  humidity : ℚ
  pressure : ℚ
  wind_speed : ℚ
  uvi : ℚ
  icon : String
  description : String
deriving DecidableEq

/-- One entry of the `daily` array consumed by `Renderer.render`. -/
structure DailyEntry where
  dt : ℤ
  temp_max : ℚ
  temp_min : ℚ
  icon : String
  moon_phase : ℚ
deriving DecidableEq

/-- The weather snapshot consumed by `Renderer.render`.  An absent `daily`
key is represented by the empty list (the source substitutes `[{}]`, whose
single entry defaults every field). -/
structure Snapshot where
  current : CurrentData
  timezone_offset : ℤ
  daily : List DailyEntry
deriving DecidableEq

/-- The black-plane operations of one forecast column
(src/renderer.py lines 240-265): day name, optional small icon, minimum
temperature; `start_y = 340`. -/
def forecastColumnBlack (table : String → Option String) (icons : String → ℤ → Option ℕ)
    (timezone_offset colWidth : ℤ) (i : ℕ) (d : DailyEntry) : List DrawOp :=
  let x := 20 + (i : ℤ) * colWidth
  [DrawOp.text (x + 10) 340 (.lit (I18n.translate table (weekdayName (d.dt + timezone_offset)))) "medium"]
    ++ (match icons d.icon 60 with
        | some n => [DrawOp.pasteIcon (x + 10) 370 n]
        | none => [])
    ++ [DrawOp.text (x + 80) 440 (.degreesInt d.temp_min) "medium"]

/-- The red-plane operation of one forecast column: the maximum temperature
(src/renderer.py lines 258-261). -/
def forecastColumnRed (colWidth : ℤ) (i : ℕ) (d : DailyEntry) : DrawOp :=
  DrawOp.text (20 + (i : ℤ) * colWidth + 10) 440 (.degreesInt d.temp_max) "medium"

/-- `Renderer.render` (src/renderer.py lines 114-267), as the ordered lists of
operations issued against the black plane and the red plane.  `hostNow` is the
host clock value that `datetime.utcnow()` would return; `icons` is the result
of `get_weather_icon` for a code and size; `table` is the i18n dictionary.
The canvas is the default 800x480 layout. -/
def render (weather_data : Option Snapshot) (hostNow : ℤ)
    (icons : String → ℤ → Option ℕ) (table : String → Option String) :
    List DrawOp × List DrawOp :=
  match weather_data with
  | none => ([DrawOp.text 10 10 (.lit "No Weather Data Available") "medium"], [])
  | some wd =>
    let tz := wd.timezone_offset
    let nowTs : ℤ :=
      match wd.current.dt with
      | some d => if d = 0 then hostNow else d + tz
      | none => hostNow
    let headerOps : List DrawOp :=
      [ .text 20 15 (.dateText nowTs (I18n.translate table (weekdayName nowTs))) "medium",
        .text 20 50 (.clockText (hourOf nowTs) (minuteOf nowTs)) "large" ]
    let iconOps : List DrawOp :=
      match icons wd.current.icon 150 with
      | some n => [.pasteIcon 20 100 n]
      | none => []
    let mainOps : List DrawOp :=
      [ .text 180 110 (.tempC wd.current.temp) "huge",
        .text 180 210 (.lit wd.current.description) "medium" ]
    let moon_age : ℚ := (match wd.daily with | [] => 0 | d :: _ => d.moon_phase) * 29.53
    let sunMoonOps :=
      draw_sun_moon_rich table 450 20 wd.current.sunrise wd.current.sunset moon_age tz
    let statsOps : List DrawOp :=
      [ .text 450 150 (.labelValue (I18n.translate table "Humidity") wd.current.humidity "%") "medium",
        .text 450 185 (.labelValue (I18n.translate table "Pressure") wd.current.pressure "hPa") "medium",
        .text 450 220 (.labelValue (I18n.translate table "Wind") wd.current.wind_speed "m/s") "medium",
        .text 450 255 (.labelValue (I18n.translate table "UV Index") wd.current.uvi "") "medium" ]
    let sepOps : List DrawOp := [.line 20 320 780 320 3]
    let colWidth : ℤ := (800 - 40) / 5
    let fc := (wd.daily.take 5).enum
    let forecastBlack :=
      (fc.map fun p => forecastColumnBlack table icons tz colWidth p.1 p.2).flatten
    let forecastRed := fc.map fun p => forecastColumnRed colWidth p.1 p.2
    (headerOps ++ iconOps ++ mainOps ++ sunMoonOps ++ statsOps ++ sepOps ++ forecastBlack,
      forecastRed)

/-- C8: for an absent/null snapshot, `render` returns the fixed placeholder
frame — the black plane carries exactly the placeholder text at (10, 10) and
the red plane is untouched (blank) — independently of the host clock, the
icon collaborator and the i18n table, and without any failure. -/
theorem render_none_placeholder (hostNow : ℤ) (icons : String → ℤ → Option ℕ)
    (table : String → Option String) :
    render none hostNow icons table =
      ([DrawOp.text 10 10 (TextContent.lit "No Weather Data Available") "medium"], []) := rfl

/-- A snapshot whose `current` dict lacks the `dt` key (UTC+9 offset). -/
def currentNoDt : CurrentData :=
  { dt := none, temp := 21.3, sunrise := 0, sunset := 0, humidity := 0, pressure := 0,
    wind_speed := 0, uvi := 0, icon := "01d", description := "clear sky" }

/-- A snapshot without `current.dt`, used to exhibit the host-clock fallback. -/
def snapshotNoDt : Snapshot :=
  { current := currentNoDt, timezone_offset := 32400, daily := [] }

/-- An icon collaborator that resolves no icon. -/
def noIcons : String → ℤ → Option ℕ := fun _ _ => none

/-- An empty i18n dictionary (every label falls back to itself). -/
def emptyTable : String → Option String := fun _ => none

/-- C5 counterexample: for a snapshot without `current.dt`, `render` falls
back to `datetime.utcnow()` for the header date and time, so the rendered
frame depends on the host system clock (here: host times 0 and 3600 give
different frames), contradicting the claim that displayed times never derive
from the local system clock. -/
theorem render_host_clock_counterexample :
    render (some snapshotNoDt) 0 noIcons emptyTable ≠
      render (some snapshotNoDt) 3600 noIcons emptyTable := by
  intro h
  have h1 := congrArg (fun p => p.1.head?) h
  simp [render, snapshotNoDt, currentNoDt, hourOf, minuteOf, weekdayName, I18n.translate,
    emptyTable, noIcons] at h1

/-- C5 amended: whenever the snapshot carries a (nonzero) `current.dt`, the
whole rendered frame is independent of the host clock — every displayed time
derives from snapshot timestamps plus the snapshot's `timezone_offset` — and
a nonzero sunrise timestamp `T0` is displayed at (450, 50) as the
hours/minutes of `T0 + timezone_offset` (the claim's scenario has
`timezone_offset = 32400`). -/
theorem render_times_host_independent (s : Snapshot) (h1 h2 : ℤ)
    (icons : String → ℤ → Option ℕ) (table : String → Option String) (d : ℤ)
    (hdt : s.current.dt = some d) (hd : d ≠ 0) :
    render (some s) h1 icons table = render (some s) h2 icons table ∧
    (s.current.sunrise ≠ 0 →
      DrawOp.text 450 50
        (TextContent.clockText (hourOf (s.current.sunrise + s.timezone_offset))
          (minuteOf (s.current.sunrise + s.timezone_offset))) "medium"
        ∈ (render (some s) h1 icons table).1) := by
  constructor
  · simp [render, hdt, hd]
  · intro hsr
    have hin : DrawOp.text 450 50
        (TextContent.clockText (hourOf (s.current.sunrise + s.timezone_offset))
          (minuteOf (s.current.sunrise + s.timezone_offset))) "medium"
        ∈ draw_sun_moon_rich table 450 20 s.current.sunrise s.current.sunset
            ((match s.daily with | [] => 0 | d :: _ => d.moon_phase) * 29.53)
            s.timezone_offset := by
      simp [draw_sun_moon_rich, fmt_ts, hsr]
    simp only [render]
    exact List.mem_append_left _ (List.mem_append_left _
      (List.mem_append_left _ (List.mem_append_right _ hin)))

/-- A snapshot carrying a nonzero `current.dt` and a nonzero sunrise. -/
def currentWithDt : CurrentData :=
  { dt := some 1700000000, temp := 21.3, sunrise := 1699999000, sunset := 1700040000,
    humidity := 60, pressure := 1013, wind_speed := 3, uvi := 5, icon := "01d",
    description := "clear sky" }

/-- A well-populated snapshot at UTC+9. -/
def snapshotWithDt : Snapshot :=
  { current := currentWithDt, timezone_offset := 32400,
    daily := [{ dt := 1700000000, temp_max := 15, temp_min := 7, icon := "01d",
                moon_phase := 0.5 }] }

theorem render_times_host_independent_witness :
    render (some snapshotWithDt) 0 noIcons emptyTable =
      render (some snapshotWithDt) 3600 noIcons emptyTable ∧
    DrawOp.text 450 50
      (TextContent.clockText
        (hourOf (snapshotWithDt.current.sunrise + snapshotWithDt.timezone_offset))
        (minuteOf (snapshotWithDt.current.sunrise + snapshotWithDt.timezone_offset)))
      "medium"
      ∈ (render (some snapshotWithDt) 0 noIcons emptyTable).1 :=
  ⟨(render_times_host_independent snapshotWithDt 0 3600 noIcons emptyTable
      1700000000 rfl (by norm_num)).1,
   (render_times_host_independent snapshotWithDt 0 3600 noIcons emptyTable
      1700000000 rfl (by norm_num)).2 (by decide)⟩

/-! ## Icon cache (Renderer.get_weather_icon, src/renderer.py lines 269-339) -/

/-- The response of the HTTP icon fetch collaborator: a status code and the
body bytes (bytes are abstracted as a natural number). -/
structure FetchResponse where
  status : ℕ
  content : ℕ
deriving DecidableEq

/-- The on-disk icon cache, keyed by icon code (the cache path
`cache/icons/{code}.png` is a deterministic injective function of the code):
`some bytes` when the file exists. -/
abbrev IconCacheFS := String → Option ℕ

/-- The outcome of one `get_weather_icon` call: the returned image (`none` on
failure), the cache state after the call, and whether an HTTP fetch was
attempted. -/
structure IconResult where
  output : Option ℕ
  fs : IconCacheFS
  fetched : Bool

/-- `Renderer.get_weather_icon` (src/renderer.py lines 269-339).  `process`
abstracts the deterministic Pillow processing stage (open, Lanczos resize to
`size`, alpha composite onto white, grayscale, threshold at 128) as a pure
function of the cached file bytes and the requested size, returning `none`
when that stage raises; every theorem below holds for an arbitrary such
function.  Control flow from the source: if the cache file exists it is used
unconditionally with no fetch; otherwise the icon is fetched, and only a
status-200 response is written to the cache — any other status or a network
error returns `none` and leaves the cache unchanged. -/
def get_weather_icon (process : ℕ → ℤ → Option ℕ) (net : Option FetchResponse)
    (fs : IconCacheFS) (code : String) (size : ℤ) : IconResult :=
  match fs code with
  | some raw => { output := process raw size, fs := fs, fetched := false }
  | none =>
    match net with
    | some resp =>
      if resp.status = 200 then
        let fs2 : IconCacheFS := fun c => if c = code then some resp.content else fs c
        { output := process resp.content size, fs := fs2, fetched := true }
      else { output := none, fs := fs, fetched := true }
    | none => { output := none, fs := fs, fetched := true }

/-- C7: when the cache file for a code already exists, `get_weather_icon`
performs no fetch, returns it unconditionally (whatever the network would
answer), leaves the cache unchanged, and a second call with the same code and
size returns identical output. -/
theorem icon_cache_hit_no_fetch (process : ℕ → ℤ → Option ℕ)
    (net1 net2 : Option FetchResponse) (fs : IconCacheFS) (code : String) (size : ℤ)
    (raw : ℕ) (hc : fs code = some raw) :
    (get_weather_icon process net1 fs code size).fetched = false ∧
    (∀ c, (get_weather_icon process net1 fs code size).fs c = fs c) ∧
    (get_weather_icon process net2 (get_weather_icon process net1 fs code size).fs
        code size).output =
      (get_weather_icon process net1 fs code size).output := by
  simp [get_weather_icon, hc]

/-- A cache holding raw bytes 7 for code 01d. -/
def fsWith01d : IconCacheFS := fun c => if c = "01d" then some 7 else none

/-- A processing stage that returns the raw bytes unchanged. -/
def idProcess : ℕ → ℤ → Option ℕ := fun b _ => some b

theorem icon_cache_hit_no_fetch_witness :
    (get_weather_icon idProcess none fsWith01d "01d" 150).fetched = false ∧
    (get_weather_icon idProcess none fsWith01d "01d" 150).fs "01d" = fsWith01d "01d" ∧
    (get_weather_icon idProcess (some ⟨200, 9⟩)
        (get_weather_icon idProcess none fsWith01d "01d" 150).fs "01d" 150).output =
      (get_weather_icon idProcess none fsWith01d "01d" 150).output :=
  ⟨(icon_cache_hit_no_fetch idProcess none (some ⟨200, 9⟩) fsWith01d "01d" 150 7 rfl).1,
   (icon_cache_hit_no_fetch idProcess none (some ⟨200, 9⟩) fsWith01d "01d" 150 7 rfl).2.1 "01d",
   (icon_cache_hit_no_fetch idProcess none (some ⟨200, 9⟩) fsWith01d "01d" 150 7 rfl).2.2⟩

/-- The fetch attempt failed: a network error (no response) or any non-200
status. -/
def fetchFailed (net : Option FetchResponse) : Prop :=
  match net with
  | none => True
  | some resp => resp.status ≠ 200

/-- C9: on a cache miss, if the HTTP fetch fails with a network error or any
non-200 status, `get_weather_icon` returns `none` (a soft failure, no
exception escapes: the result is a value), writes nothing to the cache, and a
later call for the same code attempts the fetch again. -/
theorem icon_fetch_failure_soft (process : ℕ → ℤ → Option ℕ)
    (net net2 : Option FetchResponse) (fs : IconCacheFS) (code : String) (size : ℤ)
    (hm : fs code = none) (hf : fetchFailed net) :
    (get_weather_icon process net fs code size).output = none ∧
    (get_weather_icon process net fs code size).fetched = true ∧
    (∀ c, (get_weather_icon process net fs code size).fs c = fs c) ∧
    (get_weather_icon process net2 (get_weather_icon process net fs code size).fs
        code size).fetched = true := by
  have hfirst : get_weather_icon process net fs code size =
      { output := none, fs := fs, fetched := true } := by
    cases net with
    | none => simp [get_weather_icon, hm]
    | some resp =>
      have hst : resp.status ≠ 200 := hf
      simp [get_weather_icon, hm, hst]
  refine ⟨by rw [hfirst], by rw [hfirst], fun c => by rw [hfirst], ?_⟩
  rw [hfirst]
  cases net2 with
  | none => simp [get_weather_icon, hm]
  | some r2 =>
    by_cases h200 : r2.status = 200 <;> simp [get_weather_icon, hm, h200]

/-- An empty icon cache. -/
def emptyFS : IconCacheFS := fun _ => none

theorem icon_fetch_failure_soft_witness :
    (get_weather_icon idProcess (some ⟨404, 0⟩) emptyFS "10n" 60).output = none ∧
    (get_weather_icon idProcess (some ⟨404, 0⟩) emptyFS "10n" 60).fetched = true ∧
    (get_weather_icon idProcess (some ⟨404, 0⟩) emptyFS "10n" 60).fs "10n" = emptyFS "10n" ∧
    (get_weather_icon idProcess none
        (get_weather_icon idProcess (some ⟨404, 0⟩) emptyFS "10n" 60).fs
        "10n" 60).fetched = true :=
  ⟨(icon_fetch_failure_soft idProcess (some ⟨404, 0⟩) none emptyFS "10n" 60 rfl
      (by simp [fetchFailed])).1,
   (icon_fetch_failure_soft idProcess (some ⟨404, 0⟩) none emptyFS "10n" 60 rfl
      (by simp [fetchFailed])).2.1,
   (icon_fetch_failure_soft idProcess (some ⟨404, 0⟩) none emptyFS "10n" 60 rfl
      (by simp [fetchFailed])).2.2.1 "10n",
   (icon_fetch_failure_soft idProcess (some ⟨404, 0⟩) none emptyFS "10n" 60 rfl
      (by simp [fetchFailed])).2.2.2⟩

/-! ## Moon phase generator (Renderer.generate_moon_icon, src/renderer.py lines 400-483) -/

/-- The clamp guarding `acos` (src/renderer.py lines 453-457):
`if val < -1: val = -1` then `if val > 1: val = 1`. -/
noncomputable def clampUnit (v : ℝ) : ℝ :=
  let v1 := if v < -1 then -1 else v
  if v1 > 1 then 1 else v1

/-- `theta = age / 14.765 * math.pi` (src/renderer.py line 446). -/
noncomputable def moonTheta (age : ℝ) : ℝ := age / 14.765 * Real.pi

/-- The per-scanline shadow segment drawn by `generate_moon_icon`
(src/renderer.py lines 459-474) at vertical offset `y` from the center of a
disc of the given radius: returns the `(start, end)` pixel coordinates of
the `draw.line` call.  The waxing branch is taken for `age < 15`, the
waning branch otherwise. -/
noncomputable def shadow_segment (age radius y : ℝ) : (ℝ × ℝ) × (ℝ × ℝ) :=
  let val := clampUnit (y / radius)
  let alpha := Real.arccos val
  let x := radius * Real.sin alpha
  let length := radius * Real.cos (moonTheta age) * Real.sin alpha
  if age < 15 then ((radius - x + 1, radius + y + 1), (radius + length + 1, radius + y + 1))
  else ((radius - length + 1, radius + y + 1), (radius + x + 1, radius + y + 1))

/-- `alpha = acos(clamp(y / R, -1, 1))`, as the spec names it. -/
noncomputable def moonAlpha (radius y : ℝ) : ℝ := Real.arccos (clampUnit (y / radius))

/-- `half_width = R * sin(alpha)`: the disc's horizontal extent at a
scanline, as the spec names it. -/
noncomputable def half_width (radius y : ℝ) : ℝ := radius * Real.sin (moonAlpha radius y)

/-- `shadow_extent = R * cos(theta) * sin(alpha)`: the signed reach of the
terminator at a scanline, as the spec names it. -/
noncomputable def shadow_extent (age radius y : ℝ) : ℝ :=
  radius * Real.cos (moonTheta age) * Real.sin (moonAlpha radius y)

/-- The waxing-style segment of the spec: from `center - half_width` to
`center + shadow_extent` (the disc center of the 202-pixel canvas is at
pixel offset `radius + 1`). -/
noncomputable def spec_wax_segment (age radius y : ℝ) : (ℝ × ℝ) × (ℝ × ℝ) :=
  ((radius + 1 - half_width radius y, radius + y + 1),
    (radius + 1 + shadow_extent age radius y, radius + y + 1))

/-- The waning-style segment of the spec: from `center - shadow_extent` to
`center + half_width`. -/
noncomputable def spec_wane_segment (age radius y : ℝ) : (ℝ × ℝ) × (ℝ × ℝ) :=
  ((radius + 1 - shadow_extent age radius y, radius + y + 1),
    (radius + 1 + half_width radius y, radius + y + 1))

/-- The segment choice exactly as claim C2 states it: waxing for
`age < 14.765`, waning for `age ≥ 14.765`.  Modelled from the spec words
for comparison against `shadow_segment`. -/
noncomputable def spec_claim_segment (age radius y : ℝ) : (ℝ × ℝ) × (ℝ × ℝ) :=
  if age < 14.765 then spec_wax_segment age radius y else spec_wane_segment age radius y

/-- C2 counterexample: at age 14.9 — inside the claim's waning range
`[14.765, 29.53)` — the code still draws the waxing-style segment, because
its branch condition is `age < 15`, not `age < 14.765`; at the equator
scanline (y = 0) of a radius-100 disc the drawn segment differs from the
claimed one. -/
theorem moon_branch_counterexample :
    (14.765 ≤ (14.9 : ℝ) ∧ (14.9 : ℝ) < 29.53) ∧
    shadow_segment 14.9 100 0 ≠ spec_claim_segment 14.9 100 0 := by
  refine ⟨⟨by norm_num, by norm_num⟩, ?_⟩
  have hpi := Real.pi_pos
  have hcos : Real.cos (moonTheta 14.9) < 0 := by
    have h1 : Real.pi / 2 < moonTheta 14.9 := by
      unfold moonTheta
      linarith
    have h2 : moonTheta 14.9 < Real.pi + Real.pi / 2 := by
      unfold moonTheta
      linarith
    exact Real.cos_neg_of_pi_div_two_lt_of_lt h1 h2
  intro h
  have h11 := congrArg (fun p => p.1.1) h
  simp only [shadow_segment, spec_claim_segment, spec_wane_segment, half_width,
    shadow_extent, moonAlpha, clampUnit] at h11
  norm_num [Real.arccos_zero, Real.sin_pi_div_two] at h11
  linarith [h11, hcos]

/-- C2 amended: the waxing/waning choice switches at `age < 15` (the code's
branch), not at 14.765: for every age below 15 the scanline's shadow segment
runs waxing-style from `center - half_width` to `center + shadow_extent`,
and for every age of 15 or more it runs waning-style from
`center - shadow_extent` to `center + half_width`. -/
theorem moon_shadow_branch (age radius y : ℝ) :
    shadow_segment age radius y =
      if age < 15 then spec_wax_segment age radius y else spec_wane_segment age radius y := by
  simp only [shadow_segment, spec_wax_segment, spec_wane_segment, half_width,
    shadow_extent, moonAlpha]
  split_ifs with h <;>
    exact Prod.ext (Prod.ext (by ring) rfl) (Prod.ext (by ring) rfl)

/-- The clamped value always lies in the `acos` domain. -/
theorem clampUnit_mem (v : ℝ) : -1 ≤ clampUnit v ∧ clampUnit v ≤ 1 := by
  simp only [clampUnit]
  by_cases h1 : v < -1
  · norm_num [h1]
  · by_cases h2 : v > 1
    · norm_num [h1, h2]
    · push_neg at h1 h2
      norm_num [not_lt.mpr h1, not_lt.mpr h2]
      exact ⟨h1, h2⟩

/-- One iteration of the scanline loop of `generate_moon_icon`, wrapped in
its `try/except` (src/renderer.py lines 450-477): the only failure the
source guards against is an `acos` domain error, which the clamp rules out;
a failed scanline is skipped. -/
noncomputable def scanlineSeg (age radius y : ℝ) : Option ((ℝ × ℝ) × (ℝ × ℝ)) :=
  if -1 ≤ clampUnit (y / radius) ∧ clampUnit (y / radius) ≤ 1 then
    some (shadow_segment age radius y)
  else none

/-- The final 1-bit moon icon: its pixel dimensions and the shadow segments
drawn on the 202x202 canvas before the resize. -/
structure MoonIcon where
  width : ℤ
  height : ℤ
  shadow : List ((ℝ × ℝ) × (ℝ × ℝ))

/-- `Renderer.generate_moon_icon` (src/renderer.py lines 400-483): a 202x202
canvas with `radius = 100`, scanlines at offsets `-radius .. radius - 1`
(errors skipped), then a Lanczos resize to `(size, size)` and a 1-bit
convert; the resize is the only step that can fail, and only for a
non-positive size. -/
noncomputable def generate_moon_icon (age : ℝ) (size : ℤ) : Option MoonIcon :=
  let segs := ((List.range 200).map fun (k : ℕ) => (k : ℤ) - 100).filterMap
    fun (yy : ℤ) => scanlineSeg age 100 (yy : ℝ)
  if 0 < size then some { width := size, height := size, shadow := segs } else none

/-- C10: `generate_moon_icon` is total for every real age (also ages at or
beyond 29.53, reachable since `render` computes `age = moon_phase * 29.53`
from the unvalidated API field) and every positive size: it returns an icon
of exactly `size` by `size` pixels, and no scanline is ever skipped (the
clamp keeps every scanline inside the `acos` domain, so all 200 shadow
segments are drawn). -/
theorem generate_moon_icon_total (age : ℝ) (size : ℤ) (hs : 0 < size) :
    (generate_moon_icon age size).map
        (fun icon => (icon.width, icon.height, icon.shadow.length)) =
      some (size, size, 200) := by
  have hall : ∀ yy : ℝ, scanlineSeg age 100 yy = some (shadow_segment age 100 yy) := by
    intro yy
    unfold scanlineSeg
    rw [if_pos (clampUnit_mem _)]
  have hlen : ∀ l : List ℤ,
      (l.filterMap fun (yy : ℤ) => scanlineSeg age 100 (yy : ℝ)).length = l.length := by
    intro l
    induction l with
    | nil => rfl
    | cons a t ih => simp [List.filterMap_cons, hall, ih]
  have hval : generate_moon_icon age size =
      some { width := size, height := size,
             shadow := ((List.range 200).map fun (k : ℕ) => (k : ℤ) - 100).filterMap
               fun (yy : ℤ) => scanlineSeg age 100 (yy : ℝ) } := by
    unfold generate_moon_icon
    rw [if_pos hs]
  rw [hval, Option.map_some']
  rw [hlen ((List.range 200).map fun (k : ℕ) => (k : ℤ) - 100)]
  simp

theorem generate_moon_icon_total_witness :
    (generate_moon_icon 30 1).map
        (fun icon => (icon.width, icon.height, icon.shadow.length)) =
      some (1, 1, 200) :=
  generate_moon_icon_total 30 1 (by norm_num)
